import Mathlib

/-!
Verification of the word2vec tutorial notebook (docs/notebooks/word2vec.ipynb).

The notebook's authored code is tiny: a toy-data-writing loop, two input
iterator classes (`MySentences`, `MyText`), and a linear sequence of calls into
the external gensim library.  We embed

* the Python string operations the authored code uses (`str.split()`,
  `str.lower()`, file line iteration) over code points modelled as `Nat`;
* the authored functions (`MySentences.__iter__`, `MyText.__iter__`, the
  data-writing loop) as pure functions over an explicit file-system model;
* the notebook's code cells as an abstract syntax tree, so that structural
  claims (which names are defined here, which calls go to the external
  library, where control flow occurs, absence of error handling) become
  decidable propositions about a concrete program value.
-/

namespace W2VTutorial

/-! ## Python strings as lists of code points -/

/-- A Python character, modelled as its code point. -/
abbrev PyChar := Nat

/-- A Python string, modelled as the list of its code points. -/
abbrev PyStr := List PyChar

/-- Conversion from a Lean string literal to the code-point model. -/
def pystr (s : String) : PyStr := s.toList.map Char.toNat

/-- The characters Python's `str.split()` (no arguments) treats as whitespace:
space, tab, newline, carriage return, vertical tab, form feed. -/
def isPySpace (c : PyChar) : Bool :=
  c = 32 || c = 9 || c = 10 || c = 13 || c = 11 || c = 12

/-- Accumulator-based worker for `str.split()`: `acc` holds the current word
reversed; whitespace ends the current word (if nonempty), everything else
extends it. -/
def pySplitAux : PyStr → PyStr → List PyStr
  | acc, [] => if acc = [] then [] else [acc.reverse]
  | acc, c :: rest =>
    if isPySpace c then
      if acc = [] then pySplitAux [] rest
      else acc.reverse :: pySplitAux [] rest
    else pySplitAux (c :: acc) rest

/-- Python's `str.split()` with no arguments: split on runs of whitespace,
discarding empty fields. -/
def pySplit (s : PyStr) : List PyStr := pySplitAux [] s

/-- Accumulator-based worker for file line iteration: `acc` holds the current
line reversed (without its newline); a newline terminates the line, keeping
the `'\n'` character, as Python's file iteration does. -/
def pyLinesAux : PyStr → PyStr → List PyStr
  | acc, [] => if acc = [] then [] else [acc.reverse]
  | acc, c :: rest =>
    if c = 10 then (acc.reverse ++ [10]) :: pyLinesAux [] rest
    else pyLinesAux (c :: acc) rest

/-- Iterating over an open Python text file yields its lines, each keeping its
trailing newline character (the final line may lack one); an empty file yields
no lines. -/
def pyLines (s : PyStr) : List PyStr := pyLinesAux [] s

/-- ASCII uppercase test, mirroring what `str.lower()` changes on the
notebook's ASCII corpus. -/
def isUpperCode (c : Nat) : Bool := 65 ≤ c && c ≤ 90

/-- Python's `str.lower()` on a single ASCII character. -/
def pyLowerChar (c : Nat) : Nat := if 65 ≤ c ∧ c ≤ 90 then c + 32 else c

/-- Python's `str.lower()`: lowercase every character. -/
def pyLower (s : PyStr) : PyStr := s.map pyLowerChar

/-! ## The file-system model and the authored iterator code

A directory is a finite association list from file names to file contents,
in the order `os.listdir` reports them. -/

/-- A directory: file names with their contents, in listing order. -/
abbrev Dir := List (String × PyStr)

/-- `os.listdir(dirname)`: the file names, in listing order. -/
def osListdir (d : Dir) : List String := d.map Prod.fst

/-- `open(os.path.join(dirname, fname))` followed by reading: the content of
the named file (the names handed to `open` come from `os.listdir`, so the
lookup succeeds on every name actually used). -/
def openFile (d : Dir) (fname : String) : PyStr := (d.lookup fname).getD []

/-- `MySentences.__iter__` (notebook cell defining `class MySentences`),
forced into a list as `list(sentences)` does:

    for fname in os.listdir(self.dirname):
        for line in open(os.path.join(self.dirname, fname)):
            yield line.split()
-/
def mySentencesIter (d : Dir) : List (List PyStr) :=
  (osListdir d).flatMap fun fname =>
    (pyLines (openFile d fname)).map fun line => pySplit line

/-- `MyText.__iter__` (notebook cell defining `class MyText`), forced into a
list; the single input file is given by its content:

    for line in open(lee_train_file):
        yield line.lower().split()
-/
def myTextIter (content : PyStr) : List (List PyStr) :=
  (pyLines content).map fun line => pySplit (pyLower line)

/-! ## The toy-data-writing loop -/

/-- The notebook's first input: `sentences = [['first', 'sentence'], ['second', 'sentence']]`. -/
def sentences0 : List (List PyStr) :=
  [[pystr "first", pystr "sentence"], [pystr "second", pystr "sentence"]]

/-- Content written to one file by the inner loop
`for line in sentences[i]: fout.write(line + '\n')`:
each word of the sentence on its own line. -/
def fileContent (sent : List PyStr) : PyStr := sent.flatMap fun w => w ++ [10]

/-- The data-writing loop of the toy-data cell:
`for i, fname in enumerate(filenames): ... write sentences[i] ...`,
producing the directory it leaves behind. -/
def writeData (filenames : List String) (sents : List (List PyStr)) : Dir :=
  (List.range filenames.length).map fun i =>
    (filenames.getD i "", fileContent (sents.getD i []))

/-- The `./data/` directory as the notebook's toy-data cell creates it. -/
def dataDir : Dir := writeData ["./data/f1.txt", "./data/f2.txt"] sentences0

/-! ## Fallible iteration

`MySentences.__iter__` opens each file with a bare `open` and no `try`
around it; the monadic variant makes the possible `IOError` explicit: a file
whose content is unavailable (`none`) raises, and the exception aborts the
iteration that `list(...)` or the library's vocabulary scan forces. -/

/-- Forcing `MySentences` iteration when `open` may fail: the first unreadable
file raises and nothing catches it, so the whole traversal errors. -/
def listSentencesE : List (String × Option PyStr) → Except String (List (List PyStr))
  | [] => .ok []
  | (fname, none) :: _ => .error fname
  | (_, some content) :: rest => do
    let r ← listSentencesE rest
    .ok ((pyLines content).map (fun line => pySplit line) ++ r)

/-! ## Vocabulary (external to the repository)

The vocabulary scan is implemented by the external gensim library, whose code
is not part of this repository. -/

/-- Modelled from the spec: the gensim vocabulary build is not part of this
repository's source; per the spec, the vocabulary is "the set of distinct
tokens observed during a first pass over input sentences", with words kept
when their frequency reaches `min_count`.  The result is the distinct tokens,
filtered by corpus frequency. -/
def vocabOf (minCount : Nat) (sents : List (List PyStr)) : List PyStr :=
  (sents.flatten.dedup).filter fun w => minCount ≤ sents.flatten.count w

/-! ## Abstract syntax of the notebook's code cells

A small Python fragment sufficient for the notebook: expressions, statements
and blocks, as mutual inductives so that structural analyses are plain
mutual recursion. -/

mutual
/-- Python expressions occurring in the notebook's code cells. -/
inductive Expr where
  | strE : String → Expr
  | numE : Nat → Expr
  | boolE : Bool → Expr
  | nameE : String → Expr
  | attrE : Expr → String → Expr
  | callE : Expr → ExprList → KwList → Expr
  | listE : ExprList → Expr
  | subE : Expr → Expr → Expr
  | binE : String → Expr → Expr → Expr
  | notE : Expr → Expr

/-- A list of argument expressions. -/
inductive ExprList where
  | nil : ExprList
  | cons : Expr → ExprList → ExprList

/-- A list of keyword arguments (name, value). -/
inductive KwList where
  | nil : KwList
  | cons : String → Expr → KwList → KwList
end

mutual
/-- Python statements occurring in the notebook's code cells. -/
inductive Stmt where
  | exprS : Expr → Stmt
  | assignS : Expr → Expr → Stmt
  | assignTupleS : List String → Expr → Stmt
  | ifS : Expr → Block → Block → Stmt
  | forS : List String → Expr → Block → Stmt
  | whileS : Expr → Block → Stmt
  | withS : Expr → String → Block → Stmt
  | tryS : Block → Block → Stmt
  | defS : String → List String → Block → Stmt
  | classS : String → Block → Stmt
  | yieldS : Expr → Stmt
  | importS : List String → Stmt

/-- A sequence of statements. -/
inductive Block where
  | nil : Block
  | cons : Stmt → Block → Block
end

/-- Build an `ExprList` from a Lean list. -/
def el : List Expr → ExprList
  | [] => .nil
  | e :: r => .cons e (el r)

/-- Build a `KwList` from a Lean list. -/
def kl : List (String × Expr) → KwList
  | [] => .nil
  | (k, v) :: r => .cons k v (kl r)

/-- Build a `Block` from a Lean list. -/
def bl : List Stmt → Block
  | [] => .nil
  | s :: r => .cons s (bl r)

/-- Shorthand: a variable reference. -/
def nm (x : String) : Expr := .nameE x

/-- Shorthand: a string literal. -/
def strL (s : String) : Expr := .strE s

/-- Shorthand: an attribute access. -/
def atr (e : Expr) (f : String) : Expr := .attrE e f

/-- Shorthand: a call with positional and keyword arguments. -/
def cal (f : Expr) (args : List Expr) (kws : List (String × Expr)) : Expr :=
  .callE f (el args) (kl kws)

/-- Shorthand: a list display. -/
def lst (xs : List Expr) : Expr := .listE (el xs)

/-! ### Structural analyses -/

mutual
/-- Does some expression node (the root included) satisfy `p`? -/
def exprAny (p : Expr → Bool) : Expr → Bool
  | .attrE a f => p (.attrE a f) || exprAny p a
  | .callE f args kwargs =>
    p (.callE f args kwargs) || exprAny p f || elAny p args || klAny p kwargs
  | .listE xs => p (.listE xs) || elAny p xs
  | .subE a b => p (.subE a b) || exprAny p a || exprAny p b
  | .binE o a b => p (.binE o a b) || exprAny p a || exprAny p b
  | .notE a => p (.notE a) || exprAny p a
  | e => p e

/-- Does some expression in the list satisfy `p` (recursively)? -/
def elAny (p : Expr → Bool) : ExprList → Bool
  | .nil => false
  | .cons e r => exprAny p e || elAny p r

/-- Does some keyword-argument value satisfy `p` (recursively)? -/
def klAny (p : Expr → Bool) : KwList → Bool
  | .nil => false
  | .cons _ e r => exprAny p e || klAny p r
end

mutual
/-- Does some expression anywhere in the statement satisfy `p`? -/
def stmtAnyE (p : Expr → Bool) : Stmt → Bool
  | .exprS e => exprAny p e
  | .assignS t v => exprAny p t || exprAny p v
  | .assignTupleS _ v => exprAny p v
  | .ifS c t e => exprAny p c || blockAnyE p t || blockAnyE p e
  | .forS _ it b => exprAny p it || blockAnyE p b
  | .whileS c b => exprAny p c || blockAnyE p b
  | .withS c _ b => exprAny p c || blockAnyE p b
  | .tryS b h => blockAnyE p b || blockAnyE p h
  | .defS _ _ b => blockAnyE p b
  | .classS _ b => blockAnyE p b
  | .yieldS e => exprAny p e
  | .importS _ => false

/-- Does some expression anywhere in the block satisfy `p`? -/
def blockAnyE (p : Expr → Bool) : Block → Bool
  | .nil => false
  | .cons s r => stmtAnyE p s || blockAnyE p r
end

mutual
/-- Does some statement node (the root included, nested blocks searched)
satisfy `q`? -/
def stmtAnyS (q : Stmt → Bool) : Stmt → Bool
  | .ifS c t e => q (.ifS c t e) || blockAnyS q t || blockAnyS q e
  | .forS v it b => q (.forS v it b) || blockAnyS q b
  | .whileS c b => q (.whileS c b) || blockAnyS q b
  | .withS c n b => q (.withS c n b) || blockAnyS q b
  | .tryS b h => q (.tryS b h) || blockAnyS q b || blockAnyS q h
  | .defS n ps b => q (.defS n ps b) || blockAnyS q b
  | .classS n b => q (.classS n b) || blockAnyS q b
  | s => q s

/-- Does some statement in the block satisfy `q` (recursively)? -/
def blockAnyS (q : Stmt → Bool) : Block → Bool
  | .nil => false
  | .cons s r => stmtAnyS q s || blockAnyS q r
end

mutual
/-- How many statement nodes in the statement (itself included) satisfy `q`? -/
def stmtCount (q : Stmt → Bool) : Stmt → Nat
  | .ifS c t e => (if q (.ifS c t e) then 1 else 0) + blockCount q t + blockCount q e
  | .forS v it b => (if q (.forS v it b) then 1 else 0) + blockCount q b
  | .whileS c b => (if q (.whileS c b) then 1 else 0) + blockCount q b
  | .withS c n b => (if q (.withS c n b) then 1 else 0) + blockCount q b
  | .tryS b h => (if q (.tryS b h) then 1 else 0) + blockCount q b + blockCount q h
  | .defS n ps b => (if q (.defS n ps b) then 1 else 0) + blockCount q b
  | .classS n b => (if q (.classS n b) then 1 else 0) + blockCount q b
  | s => if q s then 1 else 0

/-- How many statement nodes in the block satisfy `q`? -/
def blockCount (q : Stmt → Bool) : Block → Nat
  | .nil => 0
  | .cons s r => stmtCount q s + blockCount q r
end

mutual
/-- The names bound by `def` or `class` statements, anywhere in the statement. -/
def stmtDefNames : Stmt → List String
  | .ifS _ t e => blockDefNames t ++ blockDefNames e
  | .forS _ _ b => blockDefNames b
  | .whileS _ b => blockDefNames b
  | .withS _ _ b => blockDefNames b
  | .tryS b h => blockDefNames b ++ blockDefNames h
  | .defS n _ b => n :: blockDefNames b
  | .classS n b => n :: blockDefNames b
  | _ => []

/-- The names bound by `def` or `class` statements, anywhere in the block. -/
def blockDefNames : Block → List String
  | .nil => []
  | .cons s r => stmtDefNames s ++ blockDefNames r
end

mutual
/-- The bodies of all `def` statements, anywhere in the statement. -/
def stmtDefBodies : Stmt → List Block
  | .ifS _ t e => blockDefBodies t ++ blockDefBodies e
  | .forS _ _ b => blockDefBodies b
  | .whileS _ b => blockDefBodies b
  | .withS _ _ b => blockDefBodies b
  | .tryS b h => blockDefBodies b ++ blockDefBodies h
  | .defS _ _ b => b :: blockDefBodies b
  | .classS _ b => blockDefBodies b
  | _ => []

/-- The bodies of all `def` statements, anywhere in the block. -/
def blockDefBodies : Block → List Block
  | .nil => []
  | .cons s r => stmtDefBodies s ++ blockDefBodies r
end

/-! ### Shallow node classifiers -/

/-- Is the statement node a `try`? -/
def isTryS : Stmt → Bool
  | .tryS _ _ => true
  | _ => false

/-- Is the statement node a `while` loop? -/
def isWhileS : Stmt → Bool
  | .whileS _ _ => true
  | _ => false

/-- Is the statement node an `if` branch? -/
def isIfS : Stmt → Bool
  | .ifS _ _ _ => true
  | _ => false

/-- Is the statement node a `for` loop? -/
def isForS : Stmt → Bool
  | .forS _ _ _ => true
  | _ => false

/-- Is the expression node a binary operation? -/
def isBinE : Expr → Bool
  | .binE _ _ _ => true
  | _ => false

/-- Is the expression node a numeric literal? -/
def isNumE : Expr → Bool
  | .numE _ => true
  | _ => false

/-- Is the expression node a subscript? -/
def isSubE : Expr → Bool
  | .subE _ _ => true
  | _ => false

/-- The method or function name a call target denotes (`f` or `x.f`). -/
def calleeLeaf : Expr → Option String
  | .nameE x => some x
  | .attrE _ f => some f
  | _ => none

/-- The base variable a call target's attribute chain hangs from. -/
def calleeRoot : Expr → Option String
  | .nameE x => some x
  | .attrE e _ => calleeRoot e
  | .callE f _ _ => calleeRoot f
  | .subE e _ => calleeRoot e
  | _ => none

/-- The keys of a keyword-argument list. -/
def klKeys : KwList → List String
  | .nil => []
  | .cons k _ r => k :: klKeys r

/-- Does the positional-argument list contain the bare variable `x`? -/
def elHasName (x : String) : ExprList → Bool
  | .nil => false
  | .cons (.nameE y) r => y = x || elHasName x r
  | .cons _ r => elHasName x r

/-- Is this a call of operation `op` (by callee leaf name) passing keyword
argument `key`? -/
def isCallKw (op key : String) : Expr → Bool
  | .callE f _ kwargs => calleeLeaf f == some op && (klKeys kwargs).contains key
  | _ => false

/-- Is this a call of operation `op` (by callee leaf name)? -/
def isCallOf (op : String) : Expr → Bool
  | .callE f _ _ => calleeLeaf f == some op
  | _ => false

/-- Is this a call of operation `op` passing the bare variable `x`
positionally? -/
def isCallArgName (op x : String) : Expr → Bool
  | .callE f args _ => calleeLeaf f == some op && elHasName x args
  | _ => false

/-- Statement kinds of a straight-line script: expression statements,
assignments and imports only. -/
def isPlainStmt : Stmt → Bool
  | .exprS _ => true
  | .assignS _ _ => true
  | .assignTupleS _ _ => true
  | .importS _ => true
  | _ => false

/-- Is the block a straight-line sequence (no branch, loop, `with`, `try`,
`def` or `class`)? -/
def blockPlain : Block → Bool
  | .nil => true
  | .cons s r => isPlainStmt s && blockPlain r

/-- Does the block (recursively) assign the bare variable `v`? -/
def blockAssignsVar (v : String) (b : Block) : Bool :=
  blockAnyS (fun s =>
    match s with
    | .assignS (.nameE x) _ => x = v
    | _ => false) b

/-- Does the block (recursively) mention the bare variable `v` in some
expression? -/
def blockReadsVar (v : String) (b : Block) : Bool :=
  blockAnyE (fun e =>
    match e with
    | .nameE x => x = v
    | _ => false) b

/-- Does the statement bind `v` as a loop variable, `with` target, tuple
target or function parameter? -/
def bindsName (v : String) : Stmt → Bool
  | .assignTupleS ts _ => ts.contains v
  | .forS ts _ _ => ts.contains v
  | .withS _ n _ => n = v
  | .defS _ ps _ => ps.contains v
  | _ => false

/-! ### Library-boundary classifications -/

/-- The operations the spec names as external-library calls. -/
def gensimOps : List String :=
  ["Word2Vec", "build_vocab", "train", "most_similar", "save", "load"]

/-- The variables through which the notebook reaches the external library:
the imported module and the two model objects its constructors return. -/
def gensimRoots : List String := ["gensim", "model", "new_model"]

/-- Does the call target's attribute chain hang from the imported library
module or one of its model objects? -/
def isExternalRooted (f : Expr) : Bool :=
  match calleeRoot f with
  | some r => gensimRoots.contains r
  | none => false

/-- A call of one of the six named operations whose target is NOT rooted in
the external library: the pattern whose absence claim C1 asserts. -/
def isNonGensimOpCall : Expr → Bool
  | .callE f _ _ =>
    (match calleeLeaf f with
     | some n => gensimOps.contains n && !(isExternalRooted f)
     | none => false)
  | _ => false

/-- A statement that rebinds `gensim`, `model` or `new_model` to anything
other than a gensim-rooted value (as assignment target, tuple target, loop
variable, `with` target or parameter). -/
def rebindsLibraryName (s : Stmt) : Bool :=
  (match s with
   | .assignS (.nameE v) rhs =>
     ((v = "model" || v = "new_model") && !(calleeRoot rhs == some "gensim"))
       || v = "gensim"
   | _ => false)
  || bindsName "model" s || bindsName "new_model" s || bindsName "gensim" s

/-- An import statement bringing in the gensim module. -/
def importsGensim : Stmt → Bool
  | .importS ms => ms.contains "gensim"
  | _ => false

/-- Is a function body free of algorithmic logic: no branch, no loop other
than direct `for` delegation, no `try`, no arithmetic, no numeric literal,
no subscript?  (Claim C2's notion of "training loop / optimization code /
data structure design".) -/
def freeOfAlgorithmicLogic (b : Block) : Bool :=
  !(blockAnyS (fun s => isIfS s || isWhileS s || isTryS s) b)
    && !(blockAnyE (fun e => isBinE e || isNumE e || isSubE e) b)

/-- A statement binding the variable `sentences` to a fresh instance of one
of the notebook's own iterator classes. -/
def assignsIteratorToSentences : Stmt → Bool
  | .assignS (.nameE x) (.callE (.nameE cn) _ _) =>
    x = "sentences" && (cn = "MySentences" || cn = "MyText")
  | _ => false

/-! ## The notebook's code cells

Each executed code cell of docs/notebooks/word2vec.ipynb, transcribed in
order.  Markdown cells carry no code and are omitted. -/

/-- Cell: `import gensim, logging` and the logging setup. -/
def cellImports : Block := bl
  [ .importS ["gensim", "logging"],
    .exprS (cal (atr (nm "logging") "basicConfig") []
      [("format", strL "%(asctime)s : %(levelname)s : %(message)s"),
       ("level", atr (nm "logging") "INFO")]) ]

/-- Cell: the in-memory toy input and the first `Word2Vec` call. -/
def cellFirstModel : Block := bl
  [ .assignS (nm "sentences")
      (lst [lst [strL "first", strL "sentence"], lst [strL "second", strL "sentence"]]),
    .assignS (nm "model")
      (cal (atr (atr (nm "gensim") "models") "Word2Vec") [nm "sentences"]
        [("min_count", .numE 1)]) ]

/-- Cell: the toy-data-writing loop creating `./data/f1.txt` and
`./data/f2.txt`. -/
def cellWriteData : Block := bl
  [ .importS ["smart_open", "os"],
    .ifS (.notE (cal (atr (atr (nm "os") "path") "exists") [strL "./data/"] []))
      (bl [.exprS (cal (atr (nm "os") "makedirs") [strL "./data/"] [])])
      .nil,
    .assignS (nm "filenames") (lst [strL "./data/f1.txt", strL "./data/f2.txt"]),
    .forS ["i", "fname"] (cal (nm "enumerate") [nm "filenames"] [])
      (bl [ .withS (cal (atr (nm "smart_open") "smart_open") [nm "fname", strL "w"] []) "fout"
              (bl [ .forS ["line"] (.subE (nm "sentences") (nm "i"))
                      (bl [.exprS (cal (atr (nm "fout") "write")
                             [.binE "+" (nm "line") (strL "\n")] [])]) ]) ]) ]

/-- Cell: `class MySentences`. -/
def cellMySentences : Block := bl
  [ .classS "MySentences" (bl
      [ .defS "__init__" ["self", "dirname"]
          (bl [.assignS (atr (nm "self") "dirname") (nm "dirname")]),
        .defS "__iter__" ["self"]
          (bl [ .forS ["fname"] (cal (atr (nm "os") "listdir") [atr (nm "self") "dirname"] [])
                  (bl [ .forS ["line"]
                          (cal (nm "open")
                            [cal (atr (atr (nm "os") "path") "join")
                              [atr (nm "self") "dirname", nm "fname"] []] [])
                          (bl [.yieldS (cal (atr (nm "line") "split") [] [])]) ]) ]) ]) ]

/-- Cell: instantiate `MySentences` and print its forced contents. -/
def cellPrintSentences : Block := bl
  [ .assignS (nm "sentences") (cal (nm "MySentences") [strL "./data/"] []),
    .exprS (cal (nm "print") [cal (nm "list") [nm "sentences"] []] []) ]

/-- Cell: train on the directory iterator. -/
def cellDirModel : Block := bl
  [ .assignS (nm "model")
      (cal (atr (atr (nm "gensim") "models") "Word2Vec") [nm "sentences"]
        [("min_count", .numE 1)]) ]

/-- Cell: print the model and its vocabulary. -/
def cellPrintVocab : Block := bl
  [ .exprS (cal (nm "print") [nm "model"] []),
    .exprS (cal (nm "print") [atr (atr (nm "model") "wv") "vocab"] []) ]

/-- Cell: the explicit two-step construction (`build_vocab` then `train`). -/
def cellTwoStep : Block := bl
  [ .assignS (nm "new_model")
      (cal (atr (atr (nm "gensim") "models") "Word2Vec") [] [("min_count", .numE 1)]),
    .exprS (cal (atr (nm "new_model") "build_vocab") [nm "sentences"] []),
    .exprS (cal (atr (nm "new_model") "train") [nm "sentences"] []) ]

/-- Cell: print the two-step model and vocabulary. -/
def cellPrintTwoStep : Block := bl
  [ .exprS (cal (nm "print") [nm "new_model"] []),
    .exprS (cal (nm "print") [atr (atr (nm "model") "wv") "vocab"] []) ]

/-- Cell: locate the Lee corpus inside the installed library. -/
def cellLeePath : Block := bl
  [ .assignS (nm "test_data_dir")
      (.binE "+"
        (cal (atr (cal (atr (strL "\x7b\x7d") "format") [atr (nm "os") "sep"] []) "join")
          [lst [.subE (atr (nm "gensim") "__path__") (.numE 0), strL "test", strL "test_data"]]
          [])
        (atr (nm "os") "sep")),
    .assignS (nm "lee_train_file")
      (.binE "+" (nm "test_data_dir") (strL "lee_background.cor")) ]

/-- Cell: `class MyText` and its instantiation. -/
def cellMyText : Block := bl
  [ .classS "MyText" (bl
      [ .defS "__iter__" ["self"]
          (bl [ .forS ["line"] (cal (nm "open") [nm "lee_train_file"] [])
                  (bl [.yieldS (cal (atr (cal (atr (nm "line") "lower") [] []) "split") [] [])]) ]) ]),
    .assignS (nm "sentences") (cal (nm "MyText") [] []),
    .exprS (cal (nm "print") [nm "sentences"] []) ]

/-- Cell: `min_count=10`. -/
def cellMinCount : Block := bl
  [ .assignS (nm "model")
      (cal (atr (atr (nm "gensim") "models") "Word2Vec") [nm "sentences"]
        [("min_count", .numE 10)]) ]

/-- Cell: `size=200`. -/
def cellSize : Block := bl
  [ .assignS (nm "model")
      (cal (atr (atr (nm "gensim") "models") "Word2Vec") [nm "sentences"]
        [("size", .numE 200)]) ]

/-- Cell: `workers=4`. -/
def cellWorkers : Block := bl
  [ .assignS (nm "model")
      (cal (atr (atr (nm "gensim") "models") "Word2Vec") [nm "sentences"]
        [("workers", .numE 4)]) ]

/-- Cell: analogy-benchmark evaluation. -/
def cellAccuracy : Block := bl
  [ .exprS (cal (atr (nm "model") "accuracy") [strL "./datasets/questions-words.txt"] []) ]

/-- Cell: word-pair similarity evaluation. -/
def cellWordPairs : Block := bl
  [ .exprS (cal (atr (nm "model") "evaluate_word_pairs")
      [.binE "+" (nm "test_data_dir") (strL "wordsim353.tsv")] []) ]

/-- Cell: create a temp file and save the model. -/
def cellSave : Block := bl
  [ .importS ["tempfile.mkstemp"],
    .assignTupleS ["fs", "temp_path"] (cal (nm "mkstemp") [strL "gensim_temp"] []),
    .exprS (cal (atr (nm "model") "save") [nm "temp_path"] []) ]

/-- Cell: load the model back. -/
def cellLoad : Block := bl
  [ .assignS (nm "new_model")
      (cal (atr (atr (atr (nm "gensim") "models") "Word2Vec") "load") [nm "temp_path"] []) ]

/-- Cell: resume training with more sentences, then clean up the temp file. -/
def cellResume : Block := bl
  [ .assignS (nm "model")
      (cal (atr (atr (atr (nm "gensim") "models") "Word2Vec") "load") [nm "temp_path"] []),
    .assignS (nm "more_sentences")
      (lst [lst [strL "Advanced", strL "users", strL "can", strL "load", strL "a",
                 strL "model", strL "and", strL "continue", strL "training", strL "it",
                 strL "with", strL "more", strL "sentences"]]),
    .exprS (cal (atr (nm "model") "build_vocab") [nm "more_sentences"]
      [("update", .boolE true)]),
    .exprS (cal (atr (nm "model") "train") [nm "more_sentences"] []),
    .exprS (cal (atr (nm "os") "close") [nm "fs"] []),
    .exprS (cal (atr (nm "os") "remove") [nm "temp_path"] []) ]

/-- Cell: `most_similar` query. -/
def cellMostSimilar : Block := bl
  [ .exprS (cal (atr (nm "model") "most_similar") []
      [("positive", lst [strL "human", strL "crime"]),
       ("negative", lst [strL "party"]),
       ("topn", .numE 1)]) ]

/-- Cell: `doesnt_match` query. -/
def cellDoesntMatch : Block := bl
  [ .exprS (cal (atr (nm "model") "doesnt_match")
      [cal (atr (strL "input is lunch he sentence cat") "split") [] []] []) ]

/-- Cell: two `similarity` queries. -/
def cellSimilarity : Block := bl
  [ .exprS (cal (nm "print") [cal (atr (nm "model") "similarity") [strL "human", strL "party"] []] []),
    .exprS (cal (nm "print") [cal (atr (nm "model") "similarity") [strL "tree", strL "murder"] []] []) ]

/-- Cell: raw vector lookup `model['tree']`. -/
def cellRawVector : Block := bl
  [ .exprS (.subE (nm "model") (strL "tree")) ]

/-- All executed code cells of the notebook, in order. -/
def notebookCells : List Block :=
  [ cellImports, cellFirstModel, cellWriteData, cellMySentences, cellPrintSentences,
    cellDirModel, cellPrintVocab, cellTwoStep, cellPrintTwoStep, cellLeePath,
    cellMyText, cellMinCount, cellSize, cellWorkers, cellAccuracy, cellWordPairs,
    cellSave, cellLoad, cellResume, cellMostSimilar, cellDoesntMatch,
    cellSimilarity, cellRawVector ]

/-- Concatenation of blocks. -/
def blockAppend : Block → Block → Block
  | .nil, b => b
  | .cons s r, b => .cons s (blockAppend r b)

/-- Flatten a list of cells into one program block. -/
def joinCells : List Block → Block
  | [] => .nil
  | c :: r => blockAppend c (joinCells r)

/-- The notebook's whole executed program. -/
def notebookProgram : Block := joinCells notebookCells

/-! ## Auxiliary lemmas -/

/-- `str.split()` of an all-whitespace string is the empty list. -/
theorem pySplitAux_nil_of_all_space (s : PyStr) (h : ∀ c ∈ s, isPySpace c = true) :
    pySplitAux [] s = [] := by
  induction s with
  | nil => rfl
  | cons c r ih =>
    have hc : isPySpace c = true := h c (by simp)
    simp only [pySplitAux, hc, if_true, if_pos rfl]
    exact ih fun d hd => h d (by simp [hd])

/-- Every character of a token produced by the split worker comes from the
input or from the accumulator. -/
theorem mem_pySplitAux (s : PyStr) : ∀ (acc tok : PyStr), tok ∈ pySplitAux acc s →
    ∀ c ∈ tok, c ∈ s ∨ c ∈ acc := by
  induction s with
  | nil =>
    intro acc tok h c hc
    by_cases hacc : acc = []
    · simp [pySplitAux, hacc] at h
    · simp only [pySplitAux, if_neg hacc, List.mem_singleton] at h
      subst h
      exact Or.inr (List.mem_reverse.mp hc)
  | cons d r ih =>
    intro acc tok h c hc
    by_cases hd : isPySpace d
    · by_cases hacc : acc = []
      · simp only [pySplitAux, hd, if_true, hacc, if_pos rfl] at h
        rcases ih [] tok h c hc with h1 | h1
        · exact Or.inl (List.mem_cons_of_mem _ h1)
        · simp at h1
      · simp only [pySplitAux, hd, if_true, if_neg hacc, List.mem_cons] at h
        rcases h with h | h
        · subst h
          exact Or.inr (List.mem_reverse.mp hc)
        · rcases ih [] tok h c hc with h1 | h1
          · exact Or.inl (List.mem_cons_of_mem _ h1)
          · simp at h1
    · simp only [pySplitAux, hd, if_false] at h
      rcases ih (d :: acc) tok h c hc with h1 | h1
      · exact Or.inl (List.mem_cons_of_mem _ h1)
      · rcases List.mem_cons.mp h1 with h2 | h2
        · exact Or.inl (h2 ▸ List.mem_cons_self _ _)
        · exact Or.inr h2

/-- Every character of a `str.split()` token occurs in the split string. -/
theorem mem_of_mem_pySplit {s tok : PyStr} (h : tok ∈ pySplit s) {c : PyChar} (hc : c ∈ tok) :
    c ∈ s := by
  rcases mem_pySplitAux s [] tok h c hc with h1 | h1
  · exact h1
  · simp at h1

/-- Lowercasing a character never yields an ASCII uppercase character. -/
theorem isUpperCode_pyLowerChar (c : Nat) : isUpperCode (pyLowerChar c) = false := by
  unfold pyLowerChar isUpperCode
  split
  case isTrue h =>
    have h2 : ¬ (c + 32 ≤ 90) := by omega
    simp [h2]
  case isFalse h =>
    rcases not_and_or.mp h with h1 | h1 <;> simp [h1]

/-- No character of a lowercased string is ASCII uppercase. -/
theorem mem_pyLower_not_upper {s : PyStr} {c : PyChar} (h : c ∈ pyLower s) :
    isUpperCode c = false := by
  rcases List.mem_map.mp h with ⟨a, _, rfl⟩
  exact isUpperCode_pyLowerChar a

/-- `MySentences` iteration, resolved file by file: for a directory with
distinct file names (as `os.listdir` guarantees), the nested
listdir/open/split traversal enumerates, per file in listing order, the
whitespace-split token list of each line in order. -/
theorem mySentencesIter_eq (d : Dir) (hnd : (d.map Prod.fst).Nodup) :
    mySentencesIter d = d.flatMap fun f => (pyLines f.2).map fun line => pySplit line := by
  induction d with
  | nil => rfl
  | cons x rest ih =>
    obtain ⟨n, c⟩ := x
    simp only [List.map_cons, List.nodup_cons] at hnd
    obtain ⟨hn, hrest⟩ := hnd
    have h1 : openFile ((n, c) :: rest) n = c := by
      simp [openFile, List.lookup]
    have h2 : ∀ fname ∈ rest.map Prod.fst,
        openFile ((n, c) :: rest) fname = openFile rest fname := by
      intro fname hf
      have hne : (fname == n) = false := by
        simp only [beq_eq_false_iff_ne, ne_eq]
        intro h
        exact hn (h ▸ hf)
      simp [openFile, List.lookup, hne]
    have h3 : (rest.map Prod.fst).flatMap
          (fun fname => (pyLines (openFile ((n, c) :: rest) fname)).map fun line => pySplit line)
        = (rest.map Prod.fst).flatMap
          (fun fname => (pyLines (openFile rest fname)).map fun line => pySplit line) := by
      rw [List.flatMap, List.flatMap]
      congr 1
      exact List.map_congr_left fun a ha => by rw [h2 a ha]
    have ih2 := ih hrest
    simp only [mySentencesIter, osListdir] at ih2 ⊢
    simp only [List.map_cons, List.flatMap_cons]
    rw [h1, h3, ih2]

/-- With no handler anywhere, the first unreadable file aborts the forced
iteration with exactly its error. -/
theorem listSentencesE_error (pre : List (String × Option PyStr)) (fname : String)
    (post : List (String × Option PyStr)) (hpre : ∀ f ∈ pre, f.2 ≠ none) :
    listSentencesE (pre ++ (fname, none) :: post) = .error fname := by
  induction pre with
  | nil => rfl
  | cons x tl ih =>
    obtain ⟨n, oc⟩ := x
    cases oc with
    | none =>
      have := hpre (n, none) (by simp)
      simp at this
    | some c =>
      have hr := ih fun f hf => hpre f (by simp [hf])
      simp only [List.cons_append, listSentencesE, List.append_eq]
      rw [hr]
      rfl

/-! ## The claims -/

/-- C1: every invocation of `Word2Vec`, `build_vocab`, `train`,
`most_similar`, `save` and `load` in the notebook targets the external
gensim library (its imported module or a model object returned by it), and
the notebook's own definitions are exactly the two iterator classes and
their methods, none of which implements any of those operations; `gensim`
is bound only by its import and the model variables only by gensim-rooted
calls. -/
theorem C1_operations_external :
    blockDefNames notebookProgram = ["MySentences", "__init__", "__iter__", "MyText", "__iter__"] ∧
    gensimOps.all (fun op => !(blockDefNames notebookProgram).contains op) = true ∧
    blockAnyE isNonGensimOpCall notebookProgram = false ∧
    blockAnyS rebindsLibraryName notebookProgram = false ∧
    blockAnyS importsGensim notebookProgram = true :=
  ⟨by decide, by decide, by decide, by decide, by decide⟩

/-- C2: the notebook's three authored function bodies (`MySentences.__init__`,
`MySentences.__iter__`, `MyText.__iter__`) contain no branch, no `while`, no
`try`, no arithmetic, no numeric literal and no subscript: no training loop,
no optimization code and no data-structure logic of their own. -/
theorem C2_no_algorithmic_logic :
    (blockDefBodies notebookProgram).all freeOfAlgorithmicLogic = true ∧
    (blockDefBodies notebookProgram).length = 3 ∧
    blockDefNames notebookProgram = ["MySentences", "__init__", "__iter__", "MyText", "__iter__"] :=
  ⟨by decide, by decide, by decide⟩

/-- C3: iterating `MySentences(dirname)` is deterministic (it is a function
of the directory contents) and yields, for each file in `os.listdir` order
and each of its lines in order, exactly the whitespace-split token list of
the line; an all-whitespace or empty line yields the empty list. -/
theorem C3_mySentences_enumeration (d : Dir) (hnd : (d.map Prod.fst).Nodup) :
    mySentencesIter d = (d.flatMap fun f => (pyLines f.2).map fun line => pySplit line) ∧
    ∀ line : PyStr, (∀ c ∈ line, isPySpace c = true) → pySplit line = [] :=
  ⟨mySentencesIter_eq d hnd, fun line h => pySplitAux_nil_of_all_space line h⟩

/-- C3 witness: the notebook's own `./data/` directory instantiates the
theorem, and a whitespace-only line indeed splits to the empty list. -/
theorem C3_witness :
    mySentencesIter dataDir
      = (dataDir.flatMap fun f => (pyLines f.2).map fun line => pySplit line) ∧
    pySplit (pystr " \x09 ") = [] :=
  ⟨(C3_mySentences_enumeration dataDir (by decide)).1,
   (C3_mySentences_enumeration dataDir (by decide)).2 (pystr " \x09 ") (by decide)⟩

/-- C4 counterexample: no executed `Word2Vec` call passes the keyword
argument `iter`; the epoch count appears only in the markdown narration, so
the claim that `iter` is demonstrated "in executed code" is false of the
notebook program. -/
theorem C4_counterexample_iter :
    blockAnyE (isCallKw "Word2Vec" "iter") notebookProgram = false := by decide

/-- C4 (amended): executed code demonstrates constructing a model with
`size`, `min_count` and `workers` (epoch count `iter` appears in the
narration only and in no executed call); training on an externally supplied
iterator bound to `sentences` by the notebook's own iterator classes;
saving and loading model state to and from the temp-file path; and the
similarity and analogy queries. -/
theorem C4_interface_demonstrations :
    blockAnyE (isCallKw "Word2Vec" "min_count") notebookProgram = true ∧
    blockAnyE (isCallKw "Word2Vec" "size") notebookProgram = true ∧
    blockAnyE (isCallKw "Word2Vec" "workers") notebookProgram = true ∧
    blockAnyE (isCallKw "Word2Vec" "iter") notebookProgram = false ∧
    blockAnyE (isCallArgName "Word2Vec" "sentences") notebookProgram = true ∧
    blockAnyS assignsIteratorToSentences notebookProgram = true ∧
    blockAnyE (isCallArgName "save" "temp_path") notebookProgram = true ∧
    blockAnyE (isCallArgName "load" "temp_path") notebookProgram = true ∧
    blockAnyE (isCallOf "most_similar") notebookProgram = true ∧
    blockAnyE (isCallOf "doesnt_match") notebookProgram = true ∧
    blockAnyE (isCallOf "similarity") notebookProgram = true :=
  ⟨by decide, by decide, by decide, by decide, by decide, by decide, by decide,
   by decide, by decide, by decide, by decide⟩

/-- C5 counterexample: the notebook program does contain control flow — a
`for` loop and an `if` branch (in the toy-data cell and the iterator
classes) — and data flow: `sentences` is assigned in one cell and read by a
later cell's `Word2Vec` call. -/
theorem C5_counterexample_control_flow :
    blockAnyS isForS notebookProgram = true ∧
    blockAnyS isIfS notebookProgram = true ∧
    blockAssignsVar "sentences" (notebookCells.getD 1 Block.nil) = true ∧
    blockReadsVar "sentences" (notebookCells.getD 5 Block.nil) = true :=
  ⟨by decide, by decide, by decide, by decide⟩

/-- C5 (amended): apart from the toy-data-preparation cell (one
directory-existence branch, two nested writing loops) and the line-iteration
loops inside the two input iterator classes, every cell is a straight-line
sequence of imports, assignments and expression statements; there is no
`while` and no `try` anywhere, and the only authored component boundaries
are the two input-adapter classes; top-level variables such as `sentences`
do carry data between cells into the library calls. -/
theorem C5_linear_narration :
    notebookCells.map (blockCount isIfS)
      = [0, 0, 1, 0, 0, 0, 0, 0, 0, 0, 0, 0, 0, 0, 0, 0, 0, 0, 0, 0, 0, 0, 0] ∧
    notebookCells.map (blockCount isForS)
      = [0, 0, 2, 2, 0, 0, 0, 0, 0, 0, 1, 0, 0, 0, 0, 0, 0, 0, 0, 0, 0, 0, 0] ∧
    blockAnyS isWhileS notebookProgram = false ∧
    blockAnyS isTryS notebookProgram = false ∧
    (List.range notebookCells.length).all
      (fun i => i = 2 || i = 3 || i = 10 || blockPlain (notebookCells.getD i Block.nil)) = true ∧
    blockDefNames notebookProgram = ["MySentences", "__init__", "__iter__", "MyText", "__iter__"] ∧
    blockAssignsVar "sentences" (notebookCells.getD 1 Block.nil) = true :=
  ⟨by decide, by decide, by decide, by decide, by decide, by decide, by decide⟩

/-- C6: the notebook program contains no `try`/`except` (no error-handling
construct at all), and in the explicit-failure model of `MySentences`
iteration an unreadable file's error propagates uncaught: forcing the
iterator over a directory whose first unreadable file is `fname` yields
exactly `error fname`. -/
theorem C6_errors_uncaught :
    blockAnyS isTryS notebookProgram = false ∧
    ∀ (pre : List (String × Option PyStr)) (fname : String)
      (post : List (String × Option PyStr)),
      (∀ f ∈ pre, f.2 ≠ none) →
      listSentencesE (pre ++ (fname, none) :: post) = .error fname :=
  ⟨by decide, fun pre fname post h => listSentencesE_error pre fname post h⟩

/-- C6 witness: with `f1.txt` readable and `f2.txt` unreadable, forcing the
iteration errors with `f2.txt`. -/
theorem C6_witness :
    listSentencesE
      [("./data/f1.txt", some (pystr "first\nsentence\n")), ("./data/f2.txt", none)]
      = .error "./data/f2.txt" :=
  C6_errors_uncaught.2 [("./data/f1.txt", some (pystr "first\nsentence\n"))]
    "./data/f2.txt" [] (by decide)

/-- C7: with `min_count=1`, the vocabulary of the notebook's `./data/` run
is exactly the set of distinct input tokens {first, second, sentence}
(modelled from the spec, since the gensim vocabulary scan is external to
this repository). -/
theorem C7_vocabulary_distinct_tokens :
    vocabOf 1 (mySentencesIter dataDir) = [pystr "first", pystr "second", pystr "sentence"] ∧
    ∀ w : PyStr, w ∈ vocabOf 1 (mySentencesIter dataDir) ↔
      (w = pystr "first" ∨ w = pystr "second" ∨ w = pystr "sentence") := by
  have h : vocabOf 1 (mySentencesIter dataDir)
      = [pystr "first", pystr "second", pystr "sentence"] := by decide
  refine ⟨h, ?_⟩
  intro w
  rw [h]
  simp

/-- C8: the write-then-read round trip loses sentence structure — the
notebook's `./data/` directory reads back as four singleton sentences, one
per original word, not the original two-word sentences — while the multiset
of tokens is preserved. -/
theorem C8_roundtrip_structure :
    mySentencesIter dataDir
      = [[pystr "first"], [pystr "sentence"], [pystr "second"], [pystr "sentence"]] ∧
    mySentencesIter dataDir ≠ sentences0 ∧
    Multiset.ofList (mySentencesIter dataDir).flatten = Multiset.ofList sentences0.flatten :=
  ⟨by decide, by decide, by decide⟩

/-- C9: `MyText.__iter__` yields, per line, the whitespace-split fields of
`line.lower()`; every character of every yielded token is non-uppercase, and
hence every word entering a vocabulary built over `MyText` output is
lowercase. -/
theorem C9_myText_lowercase :
    (∀ content : PyStr,
      myTextIter content = (pyLines content).map fun line => pySplit (pyLower line)) ∧
    (∀ (content : PyStr) (sent : List PyStr) (tok : PyStr) (c : Nat),
      sent ∈ myTextIter content → tok ∈ sent → c ∈ tok → isUpperCode c = false) ∧
    (∀ (minCount : Nat) (content : PyStr) (w : PyStr) (c : Nat),
      w ∈ vocabOf minCount (myTextIter content) → c ∈ w → isUpperCode c = false) := by
  have key : ∀ (content : PyStr) (sent : List PyStr) (tok : PyStr) (c : Nat),
      sent ∈ myTextIter content → tok ∈ sent → c ∈ tok → isUpperCode c = false := by
    intro content sent tok c hsent htok hc
    simp only [myTextIter] at hsent
    rcases List.mem_map.mp hsent with ⟨line, _, rfl⟩
    exact mem_pyLower_not_upper (mem_of_mem_pySplit htok hc)
  refine ⟨fun _ => rfl, key, ?_⟩
  intro m content w c hw hc
  simp only [vocabOf] at hw
  have hflat : w ∈ (myTextIter content).flatten :=
    List.mem_dedup.mp (List.mem_filter.mp hw).1
  rcases List.mem_flatten.mp hflat with ⟨sent, hsent, hwsent⟩
  exact key content sent w c hsent hwsent hc

/-- C9 witness: on the line "First Line", the yielded token "first" contains
the code point 102 (lowercase f), and it is not uppercase. -/
theorem C9_witness : isUpperCode 102 = false :=
  C9_myText_lowercase.2.1 (pystr "First Line\n") [pystr "first", pystr "line"]
    (pystr "first") 102 (by decide) (by decide) (by decide)

end W2VTutorial
